import Mathlib

/-!
Verification of the GodotLearn MCP bridge (src/mcp/godot_mcp.py and
src/mcp/save_godot.py) against its natural-language specification.

The Python programs are shallowly embedded: pure helpers become Lean
functions, the single-active-session process manager becomes an explicit
state machine with an event trace, and the one-shot operation invoker is
modelled over an abstract description of the spawned child process.
POSIX path semantics (`os.sep = "/"`) are assumed throughout, matching
the non-Windows branches of the source.

String primitives from the Python standard library (`str.split`,
`str.endswith`, `str.lower`, `int(...)`) are embedded as structural
recursions over `List Char` so that all definitions evaluate inside the
kernel.
-/

namespace GodotLearn

/-! ## String primitives (embeddings of the Python built-ins used) -/

/-- Embedding of Python `str.split(sep)` for a one-character separator,
at the level of character lists: `"".split(sep) = [""]`, and empty
pieces between adjacent separators are kept. -/
def splitOnC (sep : Char) : List Char → List (List Char)
  | [] => [[]]
  | c :: rest =>
    let r := splitOnC sep rest
    if c = sep then [] :: r
    else
      match r with
      | [] => [[c]]
      | h :: t => (c :: h) :: t

/-- Python `s.split(sep)` for a one-character separator, on `String`. -/
def pySplit (s : String) (sep : Char) : List String :=
  (splitOnC sep s.data).map (fun cs => String.mk cs)

/-- Python `s.startswith(pre)`. -/
def pyStartsWith (s pre : String) : Bool :=
  pre.data.isPrefixOf s.data

/-- Python `s.endswith(suffix)`. -/
def pyEndsWith (s suffix : String) : Bool :=
  suffix.data.isSuffixOf s.data

/-- ASCII lower-casing of one character, as Python `str.lower` acts on
the ASCII range (the only range appearing in file extensions). -/
def lowerChar (c : Char) : Char :=
  if 'A' ≤ c ∧ c ≤ 'Z' then Char.ofNat (c.toNat + 32) else c

/-- Python `s.lower()` restricted to ASCII input. -/
def pyLower (s : String) : String :=
  String.mk (s.data.map lowerChar)

/-- Value of one decimal digit, `none` on any other character. -/
def digitVal (c : Char) : Option Nat :=
  if '0' ≤ c ∧ c ≤ '9' then some (c.toNat - 48) else none

/-- Decimal value of a nonempty digit string, `none` otherwise. -/
def digitsVal (cs : List Char) : Option Nat :=
  if cs = [] then none
  else
    cs.foldl
      (fun acc c =>
        match acc, digitVal c with
        | some n, some d => some (n * 10 + d)
        | _, _ => none)
      (some 0)

/-- Embedding of Python `int(s)` on an optional sign followed by decimal
digits; any other shape raises `ValueError`, modelled as `none`. -/
def parseInt (s : String) : Option Int :=
  match s.data with
  | '-' :: rest => (digitsVal rest).map (fun n => -(n : Int))
  | '+' :: rest => (digitsVal rest).map (fun n => (n : Int))
  | l => (digitsVal l).map (fun n => (n : Int))

/-- Python `sep.join(l)`. -/
def pyJoinWith (sep : String) : List String → String
  | [] => ""
  | [x] => x
  | x :: xs => x ++ sep ++ pyJoinWith sep xs

/-! ## Path helpers -/

/-- Direct embedding of the Python helper `validate_path`
(godot_mcp.py lines 42-48, save_godot.py lines 61-67): reject the empty
string and any path whose `os.sep`-split contains a `..` component. -/
def validate_path (path : String) : Bool :=
  !(path = "") && !((pySplit path '/').contains "..")

/-- Embedding of `posixpath.normpath`: drop `.` and empty components and
resolve `..` components lexically, keeping the POSIX special case of
exactly two leading slashes. -/
def normpath (p : String) : String :=
  if p = "" then "."
  else
    let initialSlashes : Nat :=
      if pyStartsWith p "/" then
        if pyStartsWith p "//" && !(pyStartsWith p "///") then 2 else 1
      else 0
    let comps := pySplit p '/'
    let newComps := comps.foldl
      (fun acc comp =>
        if comp = "" || comp = "." then acc
        else if comp ≠ ".." || (initialSlashes = 0 && acc.isEmpty)
                || acc.getLast? = some ".." then acc ++ [comp]
        else acc.dropLast)
      []
    let joined := pyJoinWith "/" newComps
    let withSlashes :=
      (pyJoinWith "" (List.replicate initialSlashes "/")) ++ joined
    if withSlashes = "" then "." else withSlashes

/-- Embedding of `posixpath.join` restricted to two arguments: an
absolute second argument replaces the first. -/
def joinPath (a b : String) : String :=
  if pyStartsWith b "/" then b
  else if a = "" then b
  else if pyEndsWith a "/" then a ++ b
  else a ++ "/" ++ b

/-- Embedding of `os.path.abspath` on POSIX: join the path onto the
current working directory (when relative) and normalise. -/
def abspath (cwd path : String) : String :=
  normpath (joinPath cwd path)

/-! ## Version gate -/

/-- Embedding of `is_godot_44_or_later` (godot_mcp.py lines 51-61,
save_godot.py lines 70-80): split the version string on `.`, parse the
first two components as integers, and check `major > 4` or
`major = 4 ∧ minor ≥ 4`; any parse failure yields `false`. -/
def is_godot_44_or_later (version : String) : Bool :=
  let parts := pySplit version '.'
  if parts.length ≥ 2 then
    match (parts[0]?).bind parseInt, (parts[1]?).bind parseInt with
    | some major, some minor => major > 4 || (major == 4 && minor ≥ 4)
    | _, _ => false
  else false

/-! ## Directory trees and project discovery

`find_godot_projects` (godot_mcp.py lines 478-551) walks a directory
tree looking for the `project.godot` marker file.  The filesystem is
embedded as a finite tree of named directories, each with a file list
and a subdirectory list (in `os.listdir` / `os.walk` order). -/

inductive DirTree where
  | node (name : String) (files : List String) (subdirs : List DirTree)
deriving Repr

def DirTree.name : DirTree → String
  | .node n _ _ => n

def DirTree.files : DirTree → List String
  | .node _ f _ => f

def DirTree.subdirs : DirTree → List DirTree
  | .node _ _ s => s

/-- Presence of the marker file: `os.path.exists(os.path.join(dir,
"project.godot"))` for a directory of the embedded tree. -/
def hasMarker (t : DirTree) : Bool :=
  t.files.contains "project.godot"

/-- One discovered project, as the dict `{"path": ..., "name": ...}`
built by `find_godot_projects`. -/
structure ProjEntry where
  path : String
  name : String
deriving Repr, DecidableEq

mutual

/-- The `os.walk(dir, topdown=True)` traversal with the in-place
`dirs[:] = [d for d in dirs if not d.startswith(".")]` filtering of
hidden directories, restricted to what `find_godot_projects` reads from
it: each visited directory paired with its absolute path, in preorder. -/
def walkDirs (base : String) : DirTree → List (String × DirTree)
  | .node n f s => (base, .node n f s) :: walkForest base s

def walkForest (base : String) : List DirTree → List (String × DirTree)
  | [] => []
  | d :: ds =>
      (if pyStartsWith d.name "." then []
       else walkDirs (base ++ "/" ++ d.name) d) ++ walkForest base ds

end

/-- The `seen_paths` loop at the end of `find_godot_projects`
(godot_mcp.py lines 542-548), with the set of already-seen paths made
explicit: keep the first entry carrying each path. -/
def dedupByPathAux (seen : List String) : List ProjEntry → List ProjEntry
  | [] => []
  | p :: rest =>
    if p.path ∈ seen then dedupByPathAux seen rest
    else p :: dedupByPathAux (seen ++ [p.path]) rest

/-- First-occurrence deduplication by `path`. -/
def dedupByPath (l : List ProjEntry) : List ProjEntry :=
  dedupByPathAux [] l

/-- Embedding of `GodotMCP.find_godot_projects` (godot_mcp.py lines
478-551).  `base` is the absolute path of the searched directory and
`t` its contents.  The directory itself is reported when it carries the
marker; with `recursive=True` every non-hidden strict descendant with a
marker is reported in `os.walk` preorder; otherwise every non-hidden
immediate subdirectory with a marker is reported; duplicates are then
removed by path. -/
def find_godot_projects (base : String) (t : DirTree) (recursive : Bool) :
    List ProjEntry :=
  let rootPart : List ProjEntry :=
    if hasMarker t then [⟨base, t.name⟩] else []
  let rest : List ProjEntry :=
    if recursive then
      (walkDirs base t).filterMap
        (fun p =>
          if p.1 ≠ base ∧ hasMarker p.2 then
            some ⟨p.1, p.2.name⟩
          else none)
    else
      t.subdirs.filterMap
        (fun d =>
          if !(pyStartsWith d.name ".") && hasMarker d then
            some ⟨base ++ "/" ++ d.name, d.name⟩
          else none)
  dedupByPath (rootPart ++ rest)

/-! ## Child-process session manager

State of the `GodotMCP` session fields (godot_mcp.py lines 72-74 and
130-133): the optional active process handle, the two accumulated line
sequences and the two reader-thread queues (front of a list is the
oldest queued line).  Process handles are abstracted to identifiers; a
world function gives each identifier its current liveness, which is
what `Popen.poll()` reports. -/

inductive ProcStatus where
  | running
  | exited
deriving DecidableEq, Repr

structure MCPState where
  active : Option Nat
  output : List String
  errors : List String
  stdoutQueue : List String
  stderrQueue : List String
deriving DecidableEq, Repr

/-- The state right after construction: no session. -/
def idleState : MCPState :=
  { active := none, output := [], errors := [], stdoutQueue := [], stderrQueue := [] }

/-- Point update of a process world, recording a status change. -/
def statusUpdate (w : Nat → ProcStatus) (pid : Nat) (st : ProcStatus) :
    Nat → ProcStatus :=
  fun q => if q = pid then st else w q

/-- Process-level actions the manager performs, in order. -/
inductive PEvent where
  | terminate (pid : Nat)
  | kill (pid : Nat)
  | spawn (pid : Nat)
deriving DecidableEq, Repr

/-- One `while not queue.empty(): line = queue.get_nowait(); acc.append(line)`
loop of `_read_output_queues` (godot_mcp.py lines 168-176): returns the
final queue and accumulated list. -/
def drainLoop : List String → List String → List String × List String
  | [], acc => ([], acc)
  | line :: rest, acc => drainLoop rest (acc ++ [line])

/-- Embedding of `GodotMCP._read_output_queues`: drain both queues into
the accumulated sequences. -/
def readOutputQueues (s : MCPState) : MCPState :=
  let od := drainLoop s.stdoutQueue s.output
  let ed := drainLoop s.stderrQueue s.errors
  { s with output := od.2, stdoutQueue := od.1,
           errors := ed.2, stderrQueue := ed.1 }

/-- A background reader thread pushing one decoded, trimmed stdout line
(`_enqueue_output`, godot_mcp.py lines 150-153). -/
def enqueueStdout (line : String) (s : MCPState) : MCPState :=
  { s with stdoutQueue := s.stdoutQueue ++ [line] }

/-- A background reader thread pushing one stderr line. -/
def enqueueStderr (line : String) (s : MCPState) : MCPState :=
  { s with stderrQueue := s.stderrQueue ++ [line] }

/-- Interleavings of reader-thread enqueues and handler drains, for the
conservation statement about repeated polling. -/
inductive SessionEvent where
  | out (line : String)
  | err (line : String)
  | drain

def applyEvent (s : MCPState) : SessionEvent → MCPState
  | .out line => enqueueStdout line s
  | .err line => enqueueStderr line s
  | .drain => readOutputQueues s

def applyEvents (s : MCPState) : List SessionEvent → MCPState
  | [] => s
  | e :: es => applyEvents (applyEvent s e) es

def outLine : SessionEvent → Option String
  | .out line => some line
  | _ => none

def errLine : SessionEvent → Option String
  | .err line => some line
  | _ => none

/-- Embedding of `GodotMCP.cleanup` (godot_mcp.py lines 317-335): if a
handle is held and the process still runs, terminate it, wait up to 5
seconds, and kill it if it has not exited by then; afterwards clear the
handle and both accumulated sequences.  `exitsWithin5s` is the child
process behaviour: whether it exits inside the bounded wait after
terminate. -/
def cleanup (w : Nat → ProcStatus) (exitsWithin5s : Bool) (s : MCPState) :
    MCPState × (Nat → ProcStatus) × List PEvent :=
  match s.active with
  | none => (s, w, [])
  | some pid =>
    let step :=
      if w pid = ProcStatus.running then
        if exitsWithin5s then
          (statusUpdate w pid ProcStatus.exited, [PEvent.terminate pid])
        else
          (statusUpdate w pid ProcStatus.exited,
           [PEvent.terminate pid, PEvent.kill pid])
      else (w, [])
    ({ s with active := none, output := [], errors := [] }, step.1, step.2)

inductive SessionErr where
  | noActiveSession
deriving DecidableEq, Repr

structure StopResult where
  message : String
  finalOutput : List String
  finalErrors : List String
deriving DecidableEq, Repr

structure StopOutcome where
  result : Except SessionErr StopResult
  state : MCPState
  world : Nat → ProcStatus
  events : List PEvent

/-- Embedding of `GodotMCP.stop_project` (godot_mcp.py lines 736-767):
with no handle at all, raise; with a handle whose process already
exited, drain the queues, report the final sequences and clean up; with
a running process, drain the queues, copy the final sequences and run
the terminate-wait-kill cleanup. -/
def stop_project (w : Nat → ProcStatus) (exitsWithin5s : Bool)
    (s : MCPState) : StopOutcome :=
  match s.active with
  | none => ⟨.error SessionErr.noActiveSession, s, w, []⟩
  | some pid =>
    if w pid = ProcStatus.exited then
      let s1 := readOutputQueues s
      let c := cleanup w exitsWithin5s s1
      ⟨.ok ⟨"Godot process already terminated", s1.output, s1.errors⟩,
       c.1, c.2.1, c.2.2⟩
    else
      let s1 := readOutputQueues s
      let c := cleanup w exitsWithin5s s1
      ⟨.ok ⟨"Godot project stopped", s1.output, s1.errors⟩,
       c.1, c.2.1, c.2.2⟩

structure DebugResult where
  terminated : Bool
  output : List String
  errors : List String
deriving DecidableEq, Repr

/-- Embedding of `GodotMCP.get_debug_output` (godot_mcp.py lines
708-734): with no handle, raise; with a handle whose process exited,
drain, report the final sequences flagged terminal and clean up (on an
already-exited process the cleanup only clears the fields); otherwise
drain the queues and return copies of the accumulated sequences.
`GodotServer.handle_get_debug_output` (save_godot.py lines 990-1017)
shares the no-session guard and the drain-and-copy path. -/
def get_debug_output (w : Nat → ProcStatus) (s : MCPState) :
    Except SessionErr (DebugResult × MCPState) :=
  match s.active with
  | none => .error SessionErr.noActiveSession
  | some pid =>
    if w pid = ProcStatus.exited then
      let s1 := readOutputQueues s
      .ok (⟨true, s1.output, s1.errors⟩,
           { s1 with active := none, output := [], errors := [] })
    else
      let s1 := readOutputQueues s
      .ok (⟨false, s1.output, s1.errors⟩, s1)

inductive RunErr where
  | invalidParams (message : String)
  | notFound (message : String)
  | runtime (message : String)
deriving DecidableEq, Repr

structure RunProjectOutcome where
  result : Except RunErr String
  state : MCPState
  world : Nat → ProcStatus
  events : List PEvent

/-- Embedding of `GodotMCP.run_project` (godot_mcp.py lines 628-706).
Steps, in source order: reject an empty `projectPath`; make it absolute
with `os.path.abspath`; validate the absolute path and the raw `scene`
argument with `validate_path`; check the marker file on the filesystem
(`markerAt` abstracts `os.path.exists`); stop any still-running old
session via `stop_project`; spawn the new process and reset the
sequences and queues; after the grace sleep, if the new process already
exited, read the queues, clear the handle and fail.
`exitsWithin5s` is the old child behaviour under terminate,
`immediateExit` the new child behaviour in the grace window. -/
def run_project (cwd : String) (markerAt : String → Bool)
    (w : Nat → ProcStatus) (exitsWithin5s : Bool) (newPid : Nat)
    (immediateExit : Bool) (s : MCPState)
    (projectPath : String) (scene : Option String) : RunProjectOutcome :=
  if projectPath = "" then
    ⟨.error (.invalidParams "Project path is required"), s, w, []⟩
  else
    let pAbs := abspath cwd projectPath
    if !validate_path pAbs then
      ⟨.error (.invalidParams "Invalid project path format (e.g., contains \"..\")"),
       s, w, []⟩
    else if (scene.map (fun sc => !validate_path sc)).getD false then
      ⟨.error (.invalidParams "Invalid scene path format (e.g., contains \"..\")"),
       s, w, []⟩
    else if !markerAt pAbs then
      ⟨.error (.notFound ("Not a valid Godot project (project.godot not found): " ++ pAbs)),
       s, w, []⟩
    else
      let stopped :=
        match s.active with
        | some pid =>
          if w pid = ProcStatus.running then
            let st := stop_project w exitsWithin5s s
            (st.state, st.world, st.events)
          else (s, w, [])
        | none => (s, w, [])
      let w2 := statusUpdate stopped.2.1 newPid
        (if immediateExit then ProcStatus.exited else ProcStatus.running)
      let evs := stopped.2.2 ++ [PEvent.spawn newPid]
      let s2 : MCPState :=
        { active := some newPid, output := [], errors := [],
          stdoutQueue := [], stderrQueue := [] }
      if immediateExit then
        let s3 := readOutputQueues s2
        ⟨.error (.runtime "Godot process exited immediately"),
         { s3 with active := none }, w2, evs⟩
      else
        ⟨.ok "Godot project started in debug mode. Use get_debug_output to see output.",
         s2, w2, evs⟩

/-! ## One-shot operation invoker -/

/-- Abstract behaviour of one spawned engine process: how long it would
run before exiting on its own, its exit code, and its captured output. -/
structure ProcRun where
  duration : Nat
  exitCode : Int
  stdout : String
  stderr : String
deriving DecidableEq, Repr

inductive RunResult where
  | completed (exitCode : Int) (stdout stderr : String)
  | timedOut (stdout stderr : String) (childKilled : Bool)
deriving DecidableEq, Repr

/-- Contract of Python `subprocess.run(..., capture_output=True)` with
an optional `timeout`: the call returns once the child exits within the
bound; past the bound the library kills the child and raises
`TimeoutExpired` (modelled as `timedOut` with `childKilled = true`). -/
def subprocessRun (timeoutSec : Option Nat) (p : ProcRun) : RunResult :=
  match timeoutSec with
  | none => .completed p.exitCode p.stdout p.stderr
  | some t =>
    if p.duration ≤ t then .completed p.exitCode p.stdout p.stderr
    else .timedOut p.stdout p.stderr true

inductive OpError where
  | timeout (message : String)
deriving DecidableEq, Repr

/-- Shared core of `execute_operation` in both variants: run the engine
once; a plain return and the `CalledProcessError` handler both return
the captured output unchanged (`check=True` meaning any non-zero exit
arrives through that handler); `TimeoutExpired` becomes an error naming
the operation (godot_mcp.py lines 397-433, save_godot.py lines
399-433). -/
def executeOperationWith (timeoutSec : Option Nat) (operation : String)
    (p : ProcRun) : Except OpError (String × String) :=
  match subprocessRun timeoutSec p with
  | .completed code out err =>
    if code = 0 then .ok (out, err)
    else .ok (out, err)
  | .timedOut _ _ _ =>
    .error (.timeout ("Godot operation \u0027" ++ operation ++ "\u0027 timed out"))

/-- Embedding of `GodotMCP.execute_operation`: bounded by `timeout=60`. -/
def execute_operation (operation : String) (p : ProcRun) :
    Except OpError (String × String) :=
  executeOperationWith (some 60) operation p

/-- Embedding of `GodotServer.execute_operation`: no timeout is passed, so the wait
is unbounded and the timeout branch is unreachable. -/
def execute_operation_save (operation : String) (p : ProcRun) :
    Except OpError (String × String) :=
  executeOperationWith none operation p

/-! ## Version-gated and path-normalising tool pipelines -/

inductive ToolOutcome where
  | validationError (message : String)
  | notFound (message : String)
  | versionGate (version : String)
  | invoked (operation : String)
deriving DecidableEq, Repr

/-- Control-flow skeleton of `GodotMCP.get_uid` (godot_mcp.py lines
1195-1252) up to the `execute_operation` call, with `os.path.exists`
abstracted by `markerAt`/`fileAt` and the version string reported by
`get_godot_version` passed in. -/
def get_uid_pipeline (cwd : String) (markerAt fileAt : String → Bool)
    (version projectPath filePath : String) : ToolOutcome :=
  if projectPath = "" ∨ filePath = "" then
    .validationError "Missing required parameters: projectPath, filePath"
  else
    let pAbs := abspath cwd projectPath
    if !(validate_path pAbs && validate_path filePath) then
      .validationError "Invalid path format (e.g., contains \"..\")"
    else if !markerAt pAbs then
      .notFound ("Not a valid Godot project (project.godot not found): " ++ pAbs)
    else if !fileAt (joinPath pAbs filePath) then
      .notFound ("File does not exist: " ++ filePath)
    else if !is_godot_44_or_later version then
      .versionGate version
    else
      .invoked "get_uid"

/-- Control-flow skeleton of `GodotMCP.update_project_uids`
(godot_mcp.py lines 1264-1297) up to the `execute_operation` call. -/
def update_project_uids_pipeline (cwd : String) (markerAt : String → Bool)
    (version projectPath : String) : ToolOutcome :=
  if projectPath = "" then
    .validationError "Project path is required"
  else
    let pAbs := abspath cwd projectPath
    if !validate_path pAbs then
      .validationError "Invalid project path format (e.g., contains \"..\")"
    else if !markerAt pAbs then
      .notFound ("Not a valid Godot project (project.godot not found): " ++ pAbs)
    else if !is_godot_44_or_later version then
      .versionGate version
    else
      .invoked "resave_resources"

inductive SceneToolOutcome where
  | validationError (message : String)
  | notFound (message : String)
  | invoked (scenePath extra : String)
deriving DecidableEq, Repr

/-- Control-flow skeleton of `GodotMCP.create_scene` (godot_mcp.py
lines 903-934) up to the `execute_operation` call: empty-argument
check, `abspath`, `validate_path` on both paths, the `.tscn` extension
fix-up, the marker check, then the invocation with the fixed-up scene
path. -/
def create_scene_pipeline (cwd : String) (markerAt : String → Bool)
    (projectPath scenePath rootNodeType : String) : SceneToolOutcome :=
  if projectPath = "" ∨ scenePath = "" then
    .validationError "Project path and scene path are required"
  else
    let pAbs := abspath cwd projectPath
    if !(validate_path pAbs && validate_path scenePath) then
      .validationError "Invalid path format (e.g., contains \"..\")"
    else
      let scenePath1 :=
        if pyEndsWith (pyLower scenePath) ".tscn" then scenePath
        else scenePath ++ ".tscn"
      if !markerAt pAbs then
        .notFound ("Not a valid Godot project (project.godot not found): " ++ pAbs)
      else
        .invoked scenePath1 rootNodeType

/-- Control-flow skeleton of `GodotMCP.export_mesh_library`
(godot_mcp.py lines 1078-1116) up to the `execute_operation` call: the
`.res`/`.tres` extension fix-up happens before the marker and scene
existence checks, and the invocation carries the fixed-up output
path. -/
def export_mesh_library_pipeline (cwd : String)
    (markerAt sceneAt : String → Bool)
    (projectPath scenePath outputPath : String) : SceneToolOutcome :=
  if projectPath = "" ∨ scenePath = "" ∨ outputPath = "" then
    .validationError "Missing required parameters: projectPath, scenePath, outputPath"
  else
    let pAbs := abspath cwd projectPath
    if !(validate_path pAbs && validate_path scenePath && validate_path outputPath) then
      .validationError "Invalid path format (e.g., contains \"..\")"
    else
      let outputPath1 :=
        if pyEndsWith (pyLower outputPath) ".res"
            || pyEndsWith (pyLower outputPath) ".tres" then outputPath
        else outputPath ++ ".res"
      if !markerAt pAbs then
        .notFound ("Not a valid Godot project (project.godot not found): " ++ pAbs)
      else if !sceneAt (joinPath pAbs scenePath) then
        .notFound ("Scene file does not exist: " ++ scenePath)
      else
        .invoked scenePath outputPath1

/-- The two-level example tree of the specification: a marker file both
at the root and in the immediate subdirectory `sub`. -/
def exTree : DirTree :=
  .node "root" ["project.godot"] [.node "sub" ["project.godot"] []]

/-! ## Sanity checks on concrete inputs -/

example : is_godot_44_or_later "4.4.1.stable" = true := by decide
example : is_godot_44_or_later "4.3.stable" = false := by decide
example : is_godot_44_or_later "5.0" = true := by decide
example : is_godot_44_or_later "4" = false := by decide
example : validate_path "../secret" = false := by decide
example : validate_path "a/../b" = false := by decide
example : validate_path "scenes/main.tscn" = true := by decide
example : abspath "/home/user" "../secret" = "/home/secret" := by decide
example : normpath "/a/b/../c" = "/a/c" := by decide
example : normpath "/.." = "/" := by decide
example : pyEndsWith (pyLower "Main.TSCN") ".tscn" = true := by decide
example : pyEndsWith (pyLower "main") ".tscn" = false := by decide

example :
    find_godot_projects "/root" exTree false
      = [⟨"/root", "root"⟩, ⟨"/root/sub", "sub"⟩] := by decide

example :
    find_godot_projects "/root" exTree true
      = [⟨"/root", "root"⟩, ⟨"/root/sub", "sub"⟩] := by decide

/-! ## Helper lemmas -/

theorem drainLoop_eq (q acc : List String) :
    drainLoop q acc = ([], acc ++ q) := by
  induction q generalizing acc with
  | nil => simp [drainLoop]
  | cons line rest ih => simp [drainLoop, ih]

theorem readOutputQueues_eq (s : MCPState) :
    readOutputQueues s =
      { active := s.active, output := s.output ++ s.stdoutQueue,
        errors := s.errors ++ s.stderrQueue,
        stdoutQueue := [], stderrQueue := [] } := by
  simp [readOutputQueues, drainLoop_eq]

theorem mem_map_path_dedupByPathAux (l : List ProjEntry) (seen : List String)
    (q : String) :
    q ∈ (dedupByPathAux seen l).map ProjEntry.path ↔
      q ∈ l.map ProjEntry.path ∧ q ∉ seen := by
  induction l generalizing seen with
  | nil => simp [dedupByPathAux]
  | cons p rest ih =>
    by_cases h : p.path ∈ seen
    · rw [dedupByPathAux, if_pos h, ih]
      simp only [List.map_cons, List.mem_cons]
      constructor
      · rintro ⟨hm, hn⟩
        exact ⟨Or.inr hm, hn⟩
      · rintro ⟨hm | hm, hn⟩
        · exact absurd (hm ▸ h) hn
        · exact ⟨hm, hn⟩
    · rw [dedupByPathAux, if_neg h]
      simp only [List.map_cons, List.mem_cons, ih, List.mem_append,
        List.mem_singleton]
      constructor
      · rintro (rfl | ⟨hm, hn⟩)
        · exact ⟨Or.inl rfl, h⟩
        · exact ⟨Or.inr hm, fun hq => hn (Or.inl hq)⟩
      · rintro ⟨rfl | hm, hn⟩
        · exact Or.inl rfl
        · by_cases hqe : q = p.path
          · exact Or.inl hqe
          · exact Or.inr ⟨hm, fun hq =>
              hq.elim hn (fun he => he.elim hqe (fun hnil => List.not_mem_nil _ hnil))⟩

theorem mem_map_path_dedupByPath (l : List ProjEntry) (q : String) :
    q ∈ (dedupByPath l).map ProjEntry.path ↔ q ∈ l.map ProjEntry.path := by
  rw [dedupByPath, mem_map_path_dedupByPathAux]
  simp

theorem mem_walkForest (base : String) (ds : List DirTree) (d : DirTree)
    (hmem : d ∈ ds) (hvis : pyStartsWith d.name "." = false) :
    (base ++ "/" ++ d.name, d) ∈ walkForest base ds := by
  induction ds with
  | nil => cases hmem
  | cons e es ih =>
    rcases List.mem_cons.mp hmem with rfl | h
    · apply List.mem_append_left
      rw [if_neg (by simp [hvis])]
      cases d with
      | node n f s => exact List.mem_cons_self _ _
    · exact List.mem_append_right _ (ih h)

theorem append_slash_ne (a b : String) : a ++ "/" ++ b ≠ a := by
  intro h
  have hlen := congrArg String.length h
  have h1 : ("/" : String).length = 1 := rfl
  rw [String.length_append, String.length_append, h1] at hlen
  omega

theorem applyEvents_conservation (es : List SessionEvent) (s : MCPState) :
    (applyEvents s es).output ++ (applyEvents s es).stdoutQueue
        = s.output ++ s.stdoutQueue ++ es.filterMap outLine ∧
      (applyEvents s es).errors ++ (applyEvents s es).stderrQueue
        = s.errors ++ s.stderrQueue ++ es.filterMap errLine := by
  induction es generalizing s with
  | nil => simp [applyEvents]
  | cons e rest ih =>
    cases e with
    | out line =>
      have := ih (enqueueStdout line s)
      simpa [applyEvents, applyEvent, enqueueStdout, outLine, errLine,
        List.append_assoc] using this
    | err line =>
      have := ih (enqueueStderr line s)
      simpa [applyEvents, applyEvent, enqueueStderr, outLine, errLine,
        List.append_assoc] using this
    | drain =>
      have := ih (readOutputQueues s)
      simpa [applyEvents, applyEvent, readOutputQueues_eq, outLine, errLine,
        List.append_assoc] using this

/-- Evaluation of `get_debug_output` on a running session: drain both
queues into the accumulated sequences and return copies of them. -/
theorem get_debug_output_running (w : Nat → ProcStatus) (s : MCPState)
    (pid : Nat) (hact : s.active = some pid)
    (hrun : w pid = ProcStatus.running) :
    get_debug_output w s =
      .ok (⟨false, s.output ++ s.stdoutQueue, s.errors ++ s.stderrQueue⟩,
        { active := s.active, output := s.output ++ s.stdoutQueue,
          errors := s.errors ++ s.stderrQueue,
          stdoutQueue := [], stderrQueue := [] }) := by
  rw [get_debug_output, hact]
  dsimp only
  rw [if_neg (by rw [hrun]; simp), readOutputQueues_eq]
  simp [hact]

/-! ## Claim theorems -/

/-- C3: for a running session, `get_debug_output` is idempotent — a
second poll with nothing newly enqueued returns the same accumulated
sequences and state — and over any interleaving of reader enqueues and
handler drains, the accumulated sequence plus the still-queued lines of
each stream equals the initial content plus every line that stream's
reader produced, in order: each line is moved from queue to accumulated
sequence exactly once, never lost and never duplicated. -/
theorem get_debug_output_idempotent_and_exact_once
    (w : Nat → ProcStatus) (s : MCPState) (pid : Nat)
    (hact : s.active = some pid) (hrun : w pid = ProcStatus.running) :
    (∀ r s1, get_debug_output w s = .ok (r, s1) →
       get_debug_output w s1 = .ok (r, s1)) ∧
    (∀ es : List SessionEvent,
       (applyEvents s es).output ++ (applyEvents s es).stdoutQueue
           = s.output ++ s.stdoutQueue ++ es.filterMap outLine ∧
         (applyEvents s es).errors ++ (applyEvents s es).stderrQueue
           = s.errors ++ s.stderrQueue ++ es.filterMap errLine) := by
  constructor
  · intro r s1 h
    rw [get_debug_output_running w s pid hact hrun, Except.ok.injEq,
      Prod.mk.injEq] at h
    obtain ⟨hr, hs⟩ := h
    subst hr
    subst hs
    rw [get_debug_output_running w _ pid (by simpa using hact) hrun]
    simp
  · intro es
    exact applyEvents_conservation es s

/-- Witness for C3 at a concrete running session. -/
theorem get_debug_output_idempotent_witness :
    let s : MCPState :=
      { active := some 1, output := ["a"], errors := [],
        stdoutQueue := ["b"], stderrQueue := ["e"] }
    let w : Nat → ProcStatus := fun _ => ProcStatus.running
    s.active = some 1 ∧ w 1 = ProcStatus.running ∧
    ((∀ r s1, get_debug_output w s = .ok (r, s1) →
        get_debug_output w s1 = .ok (r, s1)) ∧
      (∀ es : List SessionEvent,
        (applyEvents s es).output ++ (applyEvents s es).stdoutQueue
            = s.output ++ s.stdoutQueue ++ es.filterMap outLine ∧
          (applyEvents s es).errors ++ (applyEvents s es).stderrQueue
            = s.errors ++ s.stderrQueue ++ es.filterMap errLine)) :=
  ⟨rfl, rfl,
    get_debug_output_idempotent_and_exact_once _ _ 1 rfl rfl⟩

/-- C4: with no active session (handle `none`, as after construction or
after teardown), both `get_debug_output` and `stop_project` fail with
the no-active-session error instead of returning a success result. -/
theorem idle_poll_and_stop_fail
    (w : Nat → ProcStatus) (exitsWithin5s : Bool) (s : MCPState)
    (h : s.active = none) :
    get_debug_output w s = .error SessionErr.noActiveSession ∧
    (stop_project w exitsWithin5s s).result
      = .error SessionErr.noActiveSession := by
  rw [get_debug_output, stop_project, h]
  exact ⟨rfl, rfl⟩

/-- Witness for C4 at the initial idle state. -/
theorem idle_poll_and_stop_fail_witness :
    idleState.active = none ∧
    (get_debug_output (fun _ => ProcStatus.running) idleState
        = .error SessionErr.noActiveSession ∧
      (stop_project (fun _ => ProcStatus.running) true idleState).result
        = .error SessionErr.noActiveSession) :=
  ⟨rfl, idle_poll_and_stop_fail _ true idleState rfl⟩

/-- C5: a one-shot operation whose engine process exits with a non-zero
code inside the bound is not an error for the invoker: both variants
return the captured stdout and stderr unchanged (the
`CalledProcessError` handler returns `e.stdout, e.stderr`). -/
theorem nonzero_exit_returns_output
    (operation : String) (p : ProcRun)
    (hdur : p.duration ≤ 60) (_hcode : p.exitCode ≠ 0) :
    execute_operation operation p = .ok (p.stdout, p.stderr) ∧
    execute_operation_save operation p = .ok (p.stdout, p.stderr) := by
  refine ⟨?_, ?_⟩ <;>
    simp [execute_operation, execute_operation_save, executeOperationWith,
      subprocessRun, hdur]

/-- Witness for C5 at a concrete failing run. -/
theorem nonzero_exit_returns_output_witness :
    let p : ProcRun := ⟨3, 1, "out", "err"⟩
    p.duration ≤ 60 ∧ p.exitCode ≠ 0 ∧
    (execute_operation "create_scene" p = .ok (p.stdout, p.stderr) ∧
      execute_operation_save "create_scene" p = .ok (p.stdout, p.stderr)) :=
  ⟨by decide, by decide,
    nonzero_exit_returns_output "create_scene" _ (by decide) (by decide)⟩

/-- C6: a one-shot operation whose engine process outlives the 60-second
bound of the richer variant makes the invoker raise a timeout error
whose message names the operation, and the `subprocess.run` contract
kills the spawned child rather than leaving it running. -/
theorem timeout_names_operation_and_kills
    (operation : String) (p : ProcRun) (hdur : 60 < p.duration) :
    execute_operation operation p
        = .error (.timeout
            ("Godot operation \u0027" ++ operation ++ "\u0027 timed out")) ∧
      subprocessRun (some 60) p = .timedOut p.stdout p.stderr true := by
  have hle : ¬p.duration ≤ 60 := by omega
  refine ⟨?_, ?_⟩ <;>
    simp [execute_operation, executeOperationWith, subprocessRun, hle]

/-- C7: starting `run_project` while a session is already active and
running first stops the old process — the terminate (and, for a child
that ignores it, kill) events precede the spawn of the new process in
the manager's action trace, and the old process is observed terminated
in the resulting world — and afterwards the manager holds exactly the
new handle, so it never holds more than one process handle. -/
theorem run_project_stops_old_before_spawn
    (cwd : String) (markerAt : String → Bool) (w : Nat → ProcStatus)
    (exitsWithin5s : Bool) (newPid : Nat) (s : MCPState)
    (projectPath : String) (oldPid : Nat)
    (hact : s.active = some oldPid) (hrun : w oldPid = ProcStatus.running)
    (hne : oldPid ≠ newPid) (hp : projectPath ≠ "")
    (hval : validate_path (abspath cwd projectPath) = true)
    (hmark : markerAt (abspath cwd projectPath) = true) :
    (run_project cwd markerAt w exitsWithin5s newPid false s
          projectPath none).events
        = ([PEvent.terminate oldPid]
              ++ (if exitsWithin5s then [] else [PEvent.kill oldPid]))
            ++ [PEvent.spawn newPid] ∧
      (run_project cwd markerAt w exitsWithin5s newPid false s
          projectPath none).world oldPid = ProcStatus.exited ∧
      (run_project cwd markerAt w exitsWithin5s newPid false s
          projectPath none).state.active = some newPid ∧
      (run_project cwd markerAt w exitsWithin5s newPid false s
          projectPath none).result
        = .ok "Godot project started in debug mode. Use get_debug_output to see output." := by
  cases exitsWithin5s <;>
    simp [run_project, hp, hval, hmark, hact, hrun, hne, stop_project,
      cleanup, readOutputQueues_eq, statusUpdate]

/-- Witness for C7 at a concrete active session. -/
theorem run_project_stops_old_witness :
    let s : MCPState :=
      { active := some 1, output := ["a"], errors := [],
        stdoutQueue := ["b"], stderrQueue := [] }
    let w : Nat → ProcStatus := fun _ => ProcStatus.running
    let markerAt : String → Bool := fun _ => true
    s.active = some 1 ∧ w 1 = ProcStatus.running ∧ (1 : Nat) ≠ 2 ∧
    ("game" : String) ≠ "" ∧
    validate_path (abspath "/home/user" "game") = true ∧
    markerAt (abspath "/home/user" "game") = true ∧
    ((run_project "/home/user" markerAt w true 2 false s "game" none).events
        = ([PEvent.terminate 1] ++ (if true then [] else [PEvent.kill 1]))
            ++ [PEvent.spawn 2] ∧
      (run_project "/home/user" markerAt w true 2 false s "game" none).world 1
        = ProcStatus.exited ∧
      (run_project "/home/user" markerAt w true 2 false s "game" none).state.active
        = some 2 ∧
      (run_project "/home/user" markerAt w true 2 false s "game" none).result
        = .ok "Godot project started in debug mode. Use get_debug_output to see output.") :=
  ⟨rfl, rfl, by decide, by decide, by decide, rfl,
    run_project_stops_old_before_spawn "/home/user" _ _ true 2 _ "game" 1
      rfl rfl (by decide) (by decide) (by decide) rfl⟩

/-- C9: `stop_project` on a running session drains the remaining queued
lines, returns them appended to the accumulated sequences as the final
output and error sequences, requests termination (followed by a
force-kill when the child does not exit within the bounded wait) so the
process ends up terminated, and leaves the manager idle with the handle
and both accumulated sequences cleared. -/
theorem stop_project_running_drains_and_clears
    (w : Nat → ProcStatus) (exitsWithin5s : Bool) (s : MCPState) (pid : Nat)
    (hact : s.active = some pid) (hrun : w pid = ProcStatus.running) :
    (stop_project w exitsWithin5s s).result
        = .ok ⟨"Godot project stopped",
            s.output ++ s.stdoutQueue, s.errors ++ s.stderrQueue⟩ ∧
      (stop_project w exitsWithin5s s).state = idleState ∧
      (stop_project w exitsWithin5s s).world pid = ProcStatus.exited ∧
      (stop_project w exitsWithin5s s).events
        = [PEvent.terminate pid]
            ++ (if exitsWithin5s then [] else [PEvent.kill pid]) := by
  cases exitsWithin5s <;>
    simp [stop_project, hact, hrun, cleanup, readOutputQueues_eq,
      statusUpdate, idleState]

/-- Witness for C9 at a concrete running session with queued lines. -/
theorem stop_project_running_witness :
    let s : MCPState :=
      { active := some 3, output := ["o1"], errors := ["e1"],
        stdoutQueue := ["o2"], stderrQueue := ["e2"] }
    let w : Nat → ProcStatus := fun _ => ProcStatus.running
    s.active = some 3 ∧ w 3 = ProcStatus.running ∧
    ((stop_project w false s).result
        = .ok ⟨"Godot project stopped",
            s.output ++ s.stdoutQueue, s.errors ++ s.stderrQueue⟩ ∧
      (stop_project w false s).state = idleState ∧
      (stop_project w false s).world 3 = ProcStatus.exited ∧
      (stop_project w false s).events
        = [PEvent.terminate 3] ++ (if false then [] else [PEvent.kill 3])) :=
  ⟨rfl, rfl, stop_project_running_drains_and_clears _ false _ 3 rfl rfl⟩

/-- Witness for C6 at a concrete run lasting past the bound. -/
theorem timeout_names_operation_witness :
    let p : ProcRun := ⟨61, 0, "out", "err"⟩
    60 < p.duration ∧
    (execute_operation "get_uid" p
        = .error (.timeout
            ("Godot operation \u0027" ++ "get_uid" ++ "\u0027 timed out")) ∧
      subprocessRun (some 60) p = .timedOut p.stdout p.stderr true) :=
  ⟨by decide, timeout_names_operation_and_kills "get_uid" _ (by decide)⟩

theorem is_godot_44_or_later_false_of_below (version : String)
    (major minor : Int)
    (hmaj : ((pySplit version '.')[0]?).bind parseInt = some major)
    (hmin : ((pySplit version '.')[1]?).bind parseInt = some minor)
    (hbelow : major < 4 ∨ (major = 4 ∧ minor < 4)) :
    is_godot_44_or_later version = false := by
  have hlen : 2 ≤ (pySplit version '.').length := by
    rcases hx : (pySplit version '.')[1]? with _ | v
    · rw [hx] at hmin
      simp at hmin
    · obtain ⟨hlt, _⟩ := List.getElem?_eq_some.mp hx
      omega
  unfold is_godot_44_or_later
  dsimp only
  rw [if_pos hlen, hmaj, hmin]
  simp only [Bool.or_eq_false_iff, Bool.and_eq_false_iff,
    decide_eq_false_iff_not, not_lt, beq_iff_eq, beq_eq_false_iff_ne,
    ne_eq, ge_iff_le, not_le]
  omega

/-- C8: when the reported engine version parses to a major/minor pair
below 4.4, both `get_uid` and `update_project_uids` stop at the version
gate — the outcome is the version-gate error and in particular not an
invocation of the operations script — even when every earlier check
(arguments, path validation, marker file, target file) passes. -/
theorem uid_tools_version_gated
    (cwd projectPath filePath version : String)
    (markerAt fileAt : String → Bool) (major minor : Int)
    (hmaj : ((pySplit version '.')[0]?).bind parseInt = some major)
    (hmin : ((pySplit version '.')[1]?).bind parseInt = some minor)
    (hbelow : major < 4 ∨ (major = 4 ∧ minor < 4))
    (hp : projectPath ≠ "") (hf : filePath ≠ "")
    (hvalp : validate_path (abspath cwd projectPath) = true)
    (hvalf : validate_path filePath = true)
    (hmark : markerAt (abspath cwd projectPath) = true)
    (hfile : fileAt (joinPath (abspath cwd projectPath) filePath) = true) :
    get_uid_pipeline cwd markerAt fileAt version projectPath filePath
        = .versionGate version ∧
      update_project_uids_pipeline cwd markerAt version projectPath
        = .versionGate version ∧
      (∀ op, get_uid_pipeline cwd markerAt fileAt version projectPath filePath
          ≠ .invoked op) ∧
      (∀ op, update_project_uids_pipeline cwd markerAt version projectPath
          ≠ .invoked op) := by
  have hver := is_godot_44_or_later_false_of_below version major minor
    hmaj hmin hbelow
  have h1 : get_uid_pipeline cwd markerAt fileAt version projectPath filePath
      = .versionGate version := by
    simp [get_uid_pipeline, hp, hf, hvalp, hvalf, hmark, hfile, hver]
  have h2 : update_project_uids_pipeline cwd markerAt version projectPath
      = .versionGate version := by
    simp [update_project_uids_pipeline, hp, hvalp, hmark, hver]
  refine ⟨h1, h2, fun op => ?_, fun op => ?_⟩
  · rw [h1]
    simp
  · rw [h2]
    simp

/-- Witness for C8 at the reported version `4.3.stable`. -/
theorem uid_tools_version_gated_witness :
    let markerAt : String → Bool := fun _ => true
    let fileAt : String → Bool := fun _ => true
    ((pySplit "4.3.stable" '.')[0]?).bind parseInt = some 4 ∧
    ((pySplit "4.3.stable" '.')[1]?).bind parseInt = some 3 ∧
    ((4 : Int) < 4 ∨ ((4 : Int) = 4 ∧ (3 : Int) < 4)) ∧
    ("proj" : String) ≠ "" ∧ ("icon.png" : String) ≠ "" ∧
    validate_path (abspath "/home/user" "proj") = true ∧
    validate_path "icon.png" = true ∧
    (get_uid_pipeline "/home/user" markerAt fileAt "4.3.stable" "proj" "icon.png"
        = .versionGate "4.3.stable" ∧
      update_project_uids_pipeline "/home/user" markerAt "4.3.stable" "proj"
        = .versionGate "4.3.stable" ∧
      (∀ op, get_uid_pipeline "/home/user" markerAt fileAt "4.3.stable" "proj" "icon.png"
          ≠ .invoked op) ∧
      (∀ op, update_project_uids_pipeline "/home/user" markerAt "4.3.stable" "proj"
          ≠ .invoked op)) :=
  ⟨by decide, by decide, by decide, by decide, by decide, by decide, by decide,
    uid_tools_version_gated "/home/user" "proj" "icon.png" "4.3.stable" _ _ 4 3
      (by decide) (by decide) (by decide) (by decide) (by decide)
      (by decide) (by decide) rfl rfl⟩

/-- C10: `create_scene` executes the operation with `.tscn` appended to
a scene path that does not already end in `.tscn` case-insensitively
and passes an already-suffixed path through unchanged; likewise
`export_mesh_library` appends `.res` to an output path ending in
neither `.res` nor `.tres` case-insensitively and passes a suffixed one
through unchanged. -/
theorem scene_and_meshlib_extension_fixup
    (cwd projectPath scenePath rootNodeType outputPath : String)
    (markerAt sceneAt : String → Bool)
    (hp : projectPath ≠ "") (hs : scenePath ≠ "") (ho : outputPath ≠ "")
    (hvp : validate_path (abspath cwd projectPath) = true)
    (hvs : validate_path scenePath = true)
    (hvo : validate_path outputPath = true)
    (hm : markerAt (abspath cwd projectPath) = true)
    (hsc : sceneAt (joinPath (abspath cwd projectPath) scenePath) = true) :
    (pyEndsWith (pyLower scenePath) ".tscn" = false →
       create_scene_pipeline cwd markerAt projectPath scenePath rootNodeType
         = .invoked (scenePath ++ ".tscn") rootNodeType) ∧
    (pyEndsWith (pyLower scenePath) ".tscn" = true →
       create_scene_pipeline cwd markerAt projectPath scenePath rootNodeType
         = .invoked scenePath rootNodeType) ∧
    (pyEndsWith (pyLower outputPath) ".res" = false ∧
        pyEndsWith (pyLower outputPath) ".tres" = false →
       export_mesh_library_pipeline cwd markerAt sceneAt projectPath
           scenePath outputPath
         = .invoked scenePath (outputPath ++ ".res")) ∧
    (pyEndsWith (pyLower outputPath) ".res" = true ∨
        pyEndsWith (pyLower outputPath) ".tres" = true →
       export_mesh_library_pipeline cwd markerAt sceneAt projectPath
           scenePath outputPath
         = .invoked scenePath outputPath) := by
  refine ⟨fun hext => ?_, fun hext => ?_, fun hext => ?_, fun hext => ?_⟩
  · simp [create_scene_pipeline, hp, hs, hvp, hvs, hm, hext]
  · simp [create_scene_pipeline, hp, hs, hvp, hvs, hm, hext]
  · simp [export_mesh_library_pipeline, hp, hs, ho, hvp, hvs, hvo, hm, hsc,
      hext.1, hext.2]
  · rcases hext with hext | hext <;>
      simp [export_mesh_library_pipeline, hp, hs, ho, hvp, hvs, hvo, hm,
        hsc, hext]

/-- Witness for C10 with a scene path lacking the extension and an
output path carrying an upper-case one. -/
theorem scene_extension_fixup_witness :
    let markerAt : String → Bool := fun _ => true
    let sceneAt : String → Bool := fun _ => true
    ("proj" : String) ≠ "" ∧ ("Main" : String) ≠ "" ∧
    ("Lib.RES" : String) ≠ "" ∧
    validate_path (abspath "/home/user" "proj") = true ∧
    validate_path "Main" = true ∧ validate_path "Lib.RES" = true ∧
    ((pyEndsWith (pyLower "Main") ".tscn" = false →
        create_scene_pipeline "/home/user" markerAt "proj" "Main" "Node2D"
          = .invoked ("Main" ++ ".tscn") "Node2D") ∧
      (pyEndsWith (pyLower "Main") ".tscn" = true →
        create_scene_pipeline "/home/user" markerAt "proj" "Main" "Node2D"
          = .invoked "Main" "Node2D") ∧
      (pyEndsWith (pyLower "Lib.RES") ".res" = false ∧
          pyEndsWith (pyLower "Lib.RES") ".tres" = false →
        export_mesh_library_pipeline "/home/user" markerAt sceneAt "proj"
            "Main" "Lib.RES"
          = .invoked "Main" ("Lib.RES" ++ ".res")) ∧
      (pyEndsWith (pyLower "Lib.RES") ".res" = true ∨
          pyEndsWith (pyLower "Lib.RES") ".tres" = true →
        export_mesh_library_pipeline "/home/user" markerAt sceneAt "proj"
            "Main" "Lib.RES"
          = .invoked "Main" "Lib.RES")) :=
  ⟨by decide, by decide, by decide, by decide, by decide, by decide,
    scene_and_meshlib_extension_fixup "/home/user" "proj" "Main" "Node2D"
      "Lib.RES" _ _ (by decide) (by decide) (by decide) (by decide)
      (by decide) (by decide) rfl rfl⟩

/-- C1 counterexample: on the two-level tree with a marker at the root
and in the immediate subdirectory `sub`, `find_godot_projects` with
`recursive=False` returns both the root and the subdirectory — not only
the root as the claim states, because the non-recursive branch also
scans immediate subdirectories. -/
theorem list_projects_nonrecursive_counterexample :
    find_godot_projects "/root" exTree false
        = [⟨"/root", "root"⟩, ⟨"/root/sub", "sub"⟩] ∧
      find_godot_projects "/root" exTree false ≠ [⟨"/root", "root"⟩] := by
  decide

/-- C1 amended: on every tree carrying the marker at the root and in a
non-hidden immediate subdirectory, `find_godot_projects` reports both
the root and that subdirectory — for `recursive=False` (root check plus
immediate-subdirectory scan) just as for `recursive=True` (root check
plus full walk). -/
theorem list_projects_finds_root_and_subdir
    (base : String) (t : DirTree) (d : DirTree)
    (hroot : hasMarker t = true) (hmem : d ∈ t.subdirs)
    (hvis : pyStartsWith d.name "." = false) (hsub : hasMarker d = true) :
    (base ∈ (find_godot_projects base t false).map ProjEntry.path ∧
       base ++ "/" ++ d.name
         ∈ (find_godot_projects base t false).map ProjEntry.path) ∧
    (base ∈ (find_godot_projects base t true).map ProjEntry.path ∧
       base ++ "/" ++ d.name
         ∈ (find_godot_projects base t true).map ProjEntry.path) := by
  rw [find_godot_projects, find_godot_projects]
  rw [if_pos hroot]
  constructor
  · constructor
    · rw [mem_map_path_dedupByPath]
      simp
    · rw [mem_map_path_dedupByPath]
      have hentry : (⟨base ++ "/" ++ d.name, d.name⟩ : ProjEntry) ∈
          t.subdirs.filterMap (fun e =>
            if !(pyStartsWith e.name ".") && hasMarker e then
              some ⟨base ++ "/" ++ e.name, e.name⟩
            else none) :=
        List.mem_filterMap.mpr ⟨d, hmem, by simp [hvis, hsub]⟩
      simp only [List.map_append, List.mem_append]
      exact Or.inr (List.mem_map_of_mem ProjEntry.path hentry)
  · constructor
    · rw [mem_map_path_dedupByPath]
      simp
    · rw [mem_map_path_dedupByPath]
      have hwalk : (base ++ "/" ++ d.name, d) ∈ walkDirs base t := by
        cases t with
        | node n f s =>
          rw [walkDirs]
          exact List.mem_cons_of_mem _
            (mem_walkForest base s d hmem hvis)
      have hentry : (⟨base ++ "/" ++ d.name, d.name⟩ : ProjEntry) ∈
          (walkDirs base t).filterMap (fun p =>
            if p.1 ≠ base ∧ hasMarker p.2 then some ⟨p.1, p.2.name⟩
            else none) :=
        List.mem_filterMap.mpr
          ⟨(base ++ "/" ++ d.name, d), hwalk,
            by rw [if_pos ⟨append_slash_ne base d.name, hsub⟩]⟩
      simp only [List.map_append, List.mem_append]
      exact Or.inr (List.mem_map_of_mem ProjEntry.path hentry)

/-- Witness for the amended C1 on the concrete two-level tree. -/
theorem list_projects_finds_root_and_subdir_witness :
    let sub : DirTree := .node "sub" ["project.godot"] []
    hasMarker exTree = true ∧ sub ∈ exTree.subdirs ∧
    pyStartsWith sub.name "." = false ∧ hasMarker sub = true ∧
    ((("/root" : String)
          ∈ (find_godot_projects "/root" exTree false).map ProjEntry.path ∧
        "/root" ++ "/" ++ sub.name
          ∈ (find_godot_projects "/root" exTree false).map ProjEntry.path) ∧
      (("/root" : String)
          ∈ (find_godot_projects "/root" exTree true).map ProjEntry.path ∧
        "/root" ++ "/" ++ sub.name
          ∈ (find_godot_projects "/root" exTree true).map ProjEntry.path)) :=
  ⟨rfl, by simp [exTree, DirTree.subdirs], rfl, rfl,
    list_projects_finds_root_and_subdir "/root" exTree _ rfl
      (by simp [exTree, DirTree.subdirs]) rfl rfl⟩

/-- C2: a `projectPath` containing a parent-directory segment is not
rejected by `run_project` in godot_mcp.py: `os.path.abspath` runs
before `validate_path` and resolves the `..` away, so validation
passes (it can in fact never fail on an absolute normalised path) and
the tool proceeds to the filesystem marker check on the traversed
location.  The helper itself would have rejected the raw argument, as
the first conjunct shows — the claimed ValidationError-before-IO
behaviour is the evident intent of `validate_path` and of the guard, and
the call order defeats it. -/
theorem traversal_path_not_rejected :
    validate_path "../secret" = false ∧
    abspath "/home/user" "../secret" = "/home/secret" ∧
    validate_path (abspath "/home/user" "../secret") = true ∧
    (run_project "/home/user" (fun _ => false) (fun _ => ProcStatus.exited)
        true 1 false idleState "../secret" none).result
      = .error (.notFound
          "Not a valid Godot project (project.godot not found): /home/secret") :=
  ⟨rfl, rfl, rfl, rfl⟩

end GodotLearn
